import Mathlib

/-!
Verification development for the HospitalManager repository (Echo.py, the
patient-facing appointment bot, and Nexus.py, the provider-facing record
viewer). The code is shallowly embedded: datetimes are minutes on a single
linear scale (the code normalizes every datetime to the one configured local
timezone before comparing, so one scale suffices), database tables are lists
of rows, and each handler becomes a pure function from its inputs and the
session state to its outputs and the successor state.
-/

namespace HospitalManager

/- Instants are minutes since a fixed epoch, in the single configured local
timezone (`LOCAL_TZ` in Echo.py). Every datetime the code compares or stores
is normalized to this zone, so a single linear scale models them faithfully at
minute granularity (all slots and appointments sit on a whole-minute grid).
Instants are written as plain `Nat` throughout. -/

/-- Calendar day of an instant, as in `datetime.date()`: the index of the
1440-minute block the instant falls in. -/
def dayOf (t : Nat) : Nat := t / 1440

/-- Instant of `datetime.combine(day, time(hour, 0))` in the local zone. -/
def combineHour (day hour : Nat) : Nat := day * 1440 + hour * 60

/-- Instant of `datetime.combine(day.date(), time.min)`: local midnight of the
day that `day` falls in. -/
def start_of_day (day : Nat) : Nat := dayOf day * 1440

/-- Instant of `datetime.combine(day.date(), time.max)` at minute granularity:
the last minute of the local day that `day` falls in. -/
def end_of_day (day : Nat) : Nat := dayOf day * 1440 + 1439

/-- The while-loop of `generate_time_slots` (Echo.py lines 104-108): starting
from `current`, append a slot and advance by `interval` while strictly before
`endT`. The `fuel` argument only bounds the recursion; callers pass at least
`endT - current`, which the guard makes sufficient whenever `interval` is
positive (with `interval = 0` the Python loop would not terminate at all). -/
def slotLoopAux : Nat → Nat → Nat → Nat → List Nat
  | 0, _, _, _ => []
  | fuel + 1, current, endT, interval =>
    if current < endT then current :: slotLoopAux fuel (current + interval) endT interval
    else []

/-- `generate_time_slots` (Echo.py lines 101-109): slots from
`time(start_hour, 0)` up to but excluding `time(end_hour, 0)` on `day`,
stepping by `interval_minutes`. The Python defaults are 9, 18 and 15. -/
def generate_time_slots (day start_hour end_hour interval_minutes : Nat) : List Nat :=
  let start_time := combineHour day start_hour
  let end_time := combineHour day end_hour
  slotLoopAux (end_time - start_time) start_time end_time interval_minutes

/-- Closed-form iteration count of the slot loop: the number of grid points
`current + k * interval` strictly below `endT`, i.e. the ceiling of
`(endT - current) / interval`. Derived quantity used to state the loop lemma. -/
def slotCount (startT endT interval : Nat) : Nat := (endT - startT + interval - 1) / interval

/-- A row of the `appointments` table in Echo.py (columns DoctorID,
PatientPhoneNumber, AppointmentDateTime). -/
structure Appointment where
  doctorID : Nat
  patientPhoneNumber : String
  appointmentDateTime : Nat
deriving DecidableEq

/-- A row of the `doctors` table joined with its specialty name, as consumed
by `get_doctor_by_id` and `get_doctors_by_specialty`. -/
structure Doctor where
  doctorID : Nat
  doctorName : String
  specialty : String
  experience : Nat
deriving DecidableEq

/-- `get_doctor_by_id` (Echo.py lines 87-98): fetch one doctor row by id. -/
def get_doctor_by_id (doctors : List Doctor) (doctor_id : Nat) : Option Doctor :=
  doctors.find? (fun doc => doc.doctorID == doctor_id)

/-- The WHERE clause of `get_booked_slots` (Echo.py lines 119-122): same
doctor, and the appointment instant inside the local day of `day`. -/
def matchesBookedDay (doctor_id : Nat) (day : Nat) (a : Appointment) : Bool :=
  a.doctorID == doctor_id
    && decide (start_of_day day ≤ a.appointmentDateTime)
    && decide (a.appointmentDateTime ≤ end_of_day day)

/-- `get_booked_slots` (Echo.py lines 112-125): the stored appointment
instants of a doctor on the local day of `day`. -/
def get_booked_slots (db : List Appointment) (doctor_id : Nat) (day : Nat) : List Nat :=
  (db.filter (matchesBookedDay doctor_id day)).map (fun a => a.appointmentDateTime)

/-- The WHERE clause of `check_existing_appointment` (Echo.py lines 181-185):
same patient phone (compared exactly, no normalization), same doctor, and the
appointment instant inside the local day of `day`. -/
def matchesConflict (patient_phone : String) (doctor_id : Nat) (day : Nat) (a : Appointment) : Bool :=
  a.patientPhoneNumber == patient_phone && a.doctorID == doctor_id
    && decide (start_of_day day ≤ a.appointmentDateTime)
    && decide (a.appointmentDateTime ≤ end_of_day day)

/-- `check_existing_appointment` (Echo.py lines 175-188): `fetchone` on the
appointments of (phone, doctor) inside the local day of `day`, returning the
stored instant of the first matching row if any. -/
def check_existing_appointment (db : List Appointment) (patient_phone : String) (doctor_id : Nat) (day : Nat) : Option Nat :=
  ((db.filter (matchesConflict patient_phone doctor_id day)).head?).map
    (fun a => a.appointmentDateTime)

/-- `book_appointment` (Echo.py lines 128-144): INSERT then commit. The
`insert_ok` flag models whether the storage layer accepts the insert; on
failure the transaction rolls back, leaving the table unchanged, and the
function reports `false`. -/
def book_appointment (db : List Appointment) (doctor_id : Nat) (patient_phone : String) (slot_time : Nat) (insert_ok : Bool) : Bool × List Appointment :=
  if insert_ok then (true, db ++ [⟨doctor_id, patient_phone, slot_time⟩])
  else (false, db)

/-- The conversation states of the patient bot (Echo.py line 45), plus the
terminal `ConversationHandler.END` sentinel. `CHOOSING_SPECIALTY` is declared
in the source but never returned by any handler. -/
inductive ConvState where
  | ENTRY_POINT
  | GETTING_NAME
  | GETTING_AGE
  | GETTING_PHONE_NEW
  | GETTING_PHONE_REGULAR
  | CHOOSING_SPECIALTY
  | CHOOSING_DOCTOR
  | CHOOSING_SLOT
  | POST_BOOKING
  | CONFIRM_EXISTING_PROFILE
  | SESSION_END
deriving DecidableEq

/-- The `context.user_data` dictionary of a patient session: every key the
Echo.py handlers ever store. `clear()` resets all of them. -/
structure UserData where
  name_for_reg : Option String
  age_for_reg : Option String
  existing_profile : Option (String × Nat)
  existing_phone : Option String
  patient_name : Option String
  patient_phone : Option String
  selected_specialty : Option String
  selected_doctor_id : Option String
deriving DecidableEq

/-- The empty session dictionary, the result of `context.user_data.clear()`. -/
def UserData.empty : UserData := ⟨none, none, none, none, none, none, none, none⟩

/-- Store the logged-in identity in the session, as the handlers do with
`user_data[patient_name]` and `user_data[patient_phone]`. -/
def UserData.withIdentity (d : UserData) (nm ph : String) : UserData :=
  ⟨d.name_for_reg, d.age_for_reg, d.existing_profile, d.existing_phone,
   some nm, some ph, d.selected_specialty, d.selected_doctor_id⟩

/-- Outcome of a booking attempt as rendered by `make_booking`: a conflict
message carrying the existing booking instant and the doctor name, a
confirmation carrying the booked slot and doctor, or the failure message. -/
inductive BookingOutcome where
  | Conflict (existing_time : Nat) (doctor_name : String)
  | Confirmed (slot_time : Nat) (doctor_name : String) (specialty : String)
  | BookingFailed
deriving DecidableEq

/-- `make_booking` (Echo.py lines 392-445). The patient phone is read from
the session (`user_data`), the doctor id and slot from the pressed button;
both are passed explicitly here. `insert_ok` models whether the INSERT of
`book_appointment` succeeds. Returns the rendered outcome, the appointments
table afterwards, the next conversation state and the session dictionary
afterwards; `none` models the crash when `get_doctor_by_id` finds no row. -/
def make_booking (doctors : List Doctor) (db : List Appointment) (patient_phone : String) (doctor_id : Nat) (slot_time : Nat) (insert_ok : Bool) (d : UserData) : Option (BookingOutcome × List Appointment × ConvState × UserData) :=
  match check_existing_appointment db patient_phone doctor_id slot_time with
  | some booked_time =>
      (get_doctor_by_id doctors doctor_id).map (fun doc =>
        (BookingOutcome.Conflict booked_time doc.doctorName, db, ConvState.POST_BOOKING, d))
  | none =>
      (get_doctor_by_id doctors doctor_id).map (fun doc =>
        match book_appointment db doctor_id patient_phone slot_time insert_ok with
        | (true, db2) =>
            (BookingOutcome.Confirmed slot_time doc.doctorName doc.specialty, db2,
             ConvState.POST_BOOKING, d)
        | (false, db2) =>
            (BookingOutcome.BookingFailed, db2, ConvState.SESSION_END, UserData.empty))

/-- The availability list comprehension of `display_slots` (Echo.py lines
343-346): keep a slot when it is not among the booked instants and, only when
the shown day is today, when it lies strictly after the current instant. -/
def available_slots (all_slots booked_slots : List Nat) (now_aware : Nat) (is_today : Bool) : List Nat :=
  all_slots.filter (fun slot =>
    !(decide (slot ∈ booked_slots)) && (if is_today then decide (now_aware < slot) else true))

/-- The availability computation of `display_slots` (Echo.py lines 333-346):
generate the day grid, fetch the booked instants of the doctor on that day,
and filter with `available_slots`, where `is_today` compares the calendar day
shown with the calendar day of the current instant. -/
def display_slots_available (db : List Appointment) (doctor_id : Nat) (day_to_show now_aware : Nat) : List Nat :=
  let is_today := dayOf day_to_show == dayOf now_aware
  let all_slots := generate_time_slots (dayOf day_to_show) 9 18 15
  let booked_slots := get_booked_slots db doctor_id day_to_show
  available_slots all_slots booked_slots now_aware is_today

/-- A row of the `profiles` table (columns PhoneNumber, PatientName, Age).
The PhoneNumber column carries a UNIQUE constraint (the upsert conflicts on
it), so well-formed tables have pairwise distinct phone numbers. -/
structure Profile where
  phoneNumber : String
  patientName : String
  age : Nat
deriving DecidableEq

/-- Python `str.strip()`: drop whitespace from both ends. Structural model of
the call on Echo.py line 151. -/
def pyStrip (s : String) : String :=
  ⟨((s.data.dropWhile Char.isWhitespace).reverse.dropWhile Char.isWhitespace).reverse⟩

/-- `find_profile_by_phone` (Echo.py lines 147-154): look the stripped phone
up in the profiles table and return the name and age of the first match. -/
def find_profile_by_phone (profiles : List Profile) (phone_number : String) : Option (String × Nat) :=
  (profiles.find? (fun pr => pr.phoneNumber == pyStrip phone_number)).map
    (fun pr => (pr.patientName, pr.age))

/-- `save_new_profile` (Echo.py lines 157-172): INSERT with
`ON CONFLICT (PhoneNumber) DO UPDATE SET PatientName, Age` against a table
whose phone column is unique — if a row with this exact (unstripped) phone
exists, overwrite its name and age keeping the phone; otherwise append. -/
def save_new_profile (profiles : List Profile) (phone_number name : String) (age : Nat) : List Profile :=
  if profiles.any (fun pr => pr.phoneNumber == phone_number) then
    profiles.map (fun pr =>
      if pr.phoneNumber == phone_number then ⟨pr.phoneNumber, name, age⟩ else pr)
  else profiles ++ [⟨phone_number, name, age⟩]

/-- `show_specialties` (Echo.py lines 300-313): with no specialties available
the conversation ends, otherwise the specialty keyboard is shown and the next
state is `CHOOSING_DOCTOR`. The session dictionary is left untouched. -/
def show_specialties (specialties : List String) (d : UserData) : ConvState × UserData :=
  if specialties.isEmpty then (ConvState.SESSION_END, d)
  else (ConvState.CHOOSING_DOCTOR, d)

/-- `check_phone_and_proceed` (Echo.py lines 285-297), the regular-user login:
a found profile stores the identity in the session and proceeds through
`show_specialties`; an unknown phone re-prompts and stays in
`GETTING_PHONE_REGULAR`. Returns the reply text, next state and session. -/
def check_phone_and_proceed (profiles : List Profile) (specialties : List String) (phone_number : String) (d : UserData) : String × ConvState × UserData :=
  match find_profile_by_phone profiles phone_number with
  | some (patient_name, _age) =>
      let d2 := UserData.withIdentity d patient_name phone_number
      let r := show_specialties specialties d2
      ("Welcome back, " ++ patient_name ++ "!", r.1, r.2)
  | none =>
      ("This phone number is not registered. Please try again, or /start to register as a new user.",
       ConvState.GETTING_PHONE_REGULAR, d)

/-- An inbound chat event: a button press carrying callback data, a free-text
message, or a slash command. -/
inductive ChatEvent where
  | callback (data : String)
  | text (message : String)
  | command (name : String)
deriving DecidableEq

/-- The handler filters registered in `main` (Echo.py lines 485-511). Every
callback regex in the source is anchored and of one of these shapes: an exact
string, one or two literal alternatives followed by `.*`, a plain-text message
filter (`filters.TEXT & ~filters.COMMAND`), or a slash command. -/
inductive HandlerFilter where
  | exactData (s : String)
  | prefixData (s : String)
  | altPrefixData (s1 s2 : String)
  | textFilter
  | commandName (s : String)
deriving DecidableEq

/-- Whether the character sequence of `p` is an initial segment of `s`,
modelling an anchored regex `p.*` on callback data. -/
def strStartsWith (s p : String) : Bool := p.data.isPrefixOf s.data

/-- Which events a registered handler filter accepts. -/
def filterAccepts : HandlerFilter → ChatEvent → Bool
  | .exactData s, .callback dat => dat == s
  | .prefixData s, .callback dat => strStartsWith dat s
  | .altPrefixData s1 s2, .callback dat => strStartsWith dat s1 || strStartsWith dat s2
  | .textFilter, .text _ => true
  | .commandName s, .command c => c == s
  | _, _ => false

/-- Names of the Echo.py handler functions reachable from the states map. -/
inductive HandlerId where
  | ask_for_name_h
  | ask_for_phone_regular_h
  | get_name_and_ask_age_h
  | get_age_and_ask_phone_h
  | get_phone_and_register_h
  | check_phone_and_proceed_h
  | handle_existing_profile_confirmation_h
  | choose_doctor_h
  | choose_slot_router_h
  | make_booking_h
  | show_today_slots_again_h
  | show_specialties_h
  | finish_session_h
  | cancel_flow_h
  | cancel_h
deriving DecidableEq

/-- The per-state handler table of the patient ConversationHandler (Echo.py
lines 487-509), in registration order. `CHOOSING_SPECIALTY` never appears in
the states map, and the terminal state has no handlers. -/
def stateHandlers : ConvState → List (HandlerFilter × HandlerId)
  | .ENTRY_POINT =>
      [(.exactData "new_user", .ask_for_name_h),
       (.exactData "regular_user", .ask_for_phone_regular_h)]
  | .GETTING_NAME => [(.textFilter, .get_name_and_ask_age_h)]
  | .GETTING_AGE => [(.textFilter, .get_age_and_ask_phone_h)]
  | .GETTING_PHONE_NEW => [(.textFilter, .get_phone_and_register_h)]
  | .GETTING_PHONE_REGULAR => [(.textFilter, .check_phone_and_proceed_h)]
  | .CHOOSING_SPECIALTY => []
  | .CHOOSING_DOCTOR => [(.prefixData "specialty:", .choose_doctor_h)]
  | .CHOOSING_SLOT =>
      [(.altPrefixData "doctor:" "next_day:", .choose_slot_router_h),
       (.prefixData "book:", .make_booking_h),
       (.prefixData "show_today:", .show_today_slots_again_h),
       (.prefixData "specialty:", .choose_doctor_h)]
  | .POST_BOOKING =>
      [(.exactData "start_over_inline", .show_specialties_h),
       (.exactData "end_session", .finish_session_h)]
  | .CONFIRM_EXISTING_PROFILE =>
      [(.prefixData "continue_", .handle_existing_profile_confirmation_h)]
  | .SESSION_END => []

/-- The fallback handlers of the patient ConversationHandler (Echo.py line
510): the /cancel command and the Stop button, tried in every state after the
state handlers. -/
def fallbackHandlers : List (HandlerFilter × HandlerId) :=
  [(.commandName "cancel", .cancel_h), (.exactData "cancel_flow", .cancel_flow_h)]

/-- ConversationHandler dispatch: the first matching handler of the current
state, else the first matching fallback, else the event is ignored. -/
def dispatch (s : ConvState) (ev : ChatEvent) : Option HandlerId :=
  match (stateHandlers s).find? (fun fh => filterAccepts fh.1 ev) with
  | some fh => some fh.2
  | none => ((fallbackHandlers).find? (fun fh => filterAccepts fh.1 ev)).map (fun fh => fh.2)

/-- `cancel_flow` (Echo.py lines 461-471): acknowledge, clear the session
dictionary and end the conversation. -/
def cancel_flow (_d : UserData) : String × ConvState × UserData :=
  ("Process cancelled.", ConvState.SESSION_END, UserData.empty)

/-- `cancel` (Echo.py lines 474-480): the /cancel command handler; clears the
session dictionary and ends the conversation. -/
def cancel (_d : UserData) : String × ConvState × UserData :=
  ("Operation cancelled. You can start over anytime by clicking the button below.",
   ConvState.SESSION_END, UserData.empty)

/-- The conversation states of the provider bot (Nexus.py line 33), plus the
terminal sentinel. -/
inductive NexusState where
  | AUTHENTICATING
  | VIEWING_OPTIONS
  | GETTING_DATE
  | POST_VIEWING_CHOICE
  | NEXUS_END
deriving DecidableEq

/-- A row of appointments.csv as parsed by Nexus.py (columns DoctorID,
AppointmentDateTime, PatientName). -/
structure NexusAppointment where
  doctorID : String
  appointmentDateTime : Nat
  patientName : String
deriving DecidableEq

/-- Contents of appointments.csv: `none` models an absent file
(`FileNotFoundError`), `some rows` a readable file. -/
def rowsOf : Option (List NexusAppointment) → List NexusAppointment
  | none => []
  | some rows => rows

/-- `get_appointments_for_doctor` (Nexus.py lines 56-74): rows whose stripped
DoctorID equals the stripped requested id and whose instant falls on `day`,
projected to (time, patient name) and sorted ascending by time; an absent
file yields the empty list. -/
def get_appointments_for_doctor (file : Option (List NexusAppointment)) (doctor_id : String) (day : Nat) : List (Nat × String) :=
  match file with
  | none => []
  | some rows =>
      (((rows.filter (fun r =>
          pyStrip r.doctorID == pyStrip doctor_id && dayOf r.appointmentDateTime == day)).map
        (fun r => (r.appointmentDateTime, r.patientName))).mergeSort
          (fun x y => decide (x.1 ≤ y.1)))

/-- What `display_records` (Nexus.py lines 178-220) renders: the ordered
appointment list, the trailing total count of the message, and whether an
Excel export document is sent (it is sent exactly when the list is
non-empty). -/
structure RecordsView where
  entries : List (Nat × String)
  total_shown : Nat
  exported : Bool
deriving DecidableEq

/-- `display_records` (Nexus.py lines 178-220): fetch the appointments of the
authenticated doctor on the resolved date, render them with the trailing
count, export when non-empty, and move to the follow-up menu state. -/
def display_records (file : Option (List NexusAppointment)) (doctor_id : String) (day : Nat) : RecordsView × NexusState :=
  let appointments := get_appointments_for_doctor file doctor_id day
  (⟨appointments, appointments.length, !appointments.isEmpty⟩, NexusState.POST_VIEWING_CHOICE)

/-- `show_viewing_options` (Nexus.py lines 124-137): render the options menu
and stay in / return to `VIEWING_OPTIONS`. -/
def show_viewing_options : NexusState := NexusState.VIEWING_OPTIONS

/-- `get_specific_date` (Nexus.py lines 161-174). The external dateparser
collaborator is modelled by its outcome `parsed`: `some instant` when the
text was recognized, `none` otherwise. On success the records of the parsed
calendar day are displayed; on failure an explanatory re-prompt message is
sent (the Bool component) and the session returns to the options menu via
`show_viewing_options`. -/
def get_specific_date (parsed : Option Nat) (file : Option (List NexusAppointment)) (doctor_id : String) : NexusState × Option RecordsView × Bool :=
  match parsed with
  | some date_obj =>
      let r := display_records file doctor_id (dayOf date_obj)
      (r.2, some r.1, false)
  | none => (show_viewing_options, none, true)

/-! Slot generation: closed form of the while-loop and the derived facts. -/

theorem slotCount_eq_zero {current endT interval : Nat} (hi : 0 < interval) (h : ¬ current < endT) :
    slotCount current endT interval = 0 := by
  unfold slotCount
  have h0 : endT - current = 0 := by omega
  rw [h0]
  exact Nat.div_eq_of_lt (by omega)

theorem slotCount_succ {current endT interval : Nat} (hi : 0 < interval) (h : current < endT) :
    slotCount current endT interval = slotCount (current + interval) endT interval + 1 := by
  unfold slotCount
  by_cases hcase : endT ≤ current + interval
  · have h1 : endT - (current + interval) = 0 := by omega
    rw [h1]
    have h2 : (0 + interval - 1) / interval = 0 := Nat.div_eq_of_lt (by omega)
    rw [h2]
    have h3 : endT - current + interval - 1 = (endT - current - 1) + interval := by omega
    rw [h3, Nat.add_div_right _ hi, Nat.div_eq_of_lt (by omega)]
  · have h3 : endT - current + interval - 1 = (endT - (current + interval) + interval - 1) + interval := by
      omega
    rw [h3, Nat.add_div_right _ hi]

theorem slotLoopAux_closed {interval : Nat} (hi : 0 < interval) :
    ∀ (fuel current endT : Nat), endT - current ≤ fuel →
      slotLoopAux fuel current endT interval =
        (List.range (slotCount current endT interval)).map (fun k => current + k * interval) := by
  intro fuel
  induction fuel with
  | zero =>
    intro current endT h
    have hce : ¬ current < endT := by omega
    rw [slotCount_eq_zero hi hce]
    simp [slotLoopAux]
  | succ n ih =>
    intro current endT h
    by_cases hlt : current < endT
    · have hrec := ih (current + interval) endT (by omega)
      rw [slotLoopAux, if_pos hlt, hrec, slotCount_succ hi hlt, List.range_succ_eq_map]
      simp only [List.map_cons, List.map_map, Nat.zero_mul, Nat.add_zero]
      have hfun : ((fun k => current + k * interval) ∘ Nat.succ) =
          (fun k => current + interval + k * interval) := by
        funext k
        simp only [Function.comp_apply, Nat.succ_eq_add_one]
        ring
      rw [hfun]
    · rw [slotCount_eq_zero hi hlt]
      rw [slotLoopAux, if_neg hlt]
      simp

theorem generate_time_slots_closed (day s e i : Nat) (hi : 0 < i) :
    generate_time_slots day s e i =
      (List.range (slotCount (combineHour day s) (combineHour day e) i)).map
        (fun k => combineHour day s + k * i) :=
  slotLoopAux_closed hi _ _ _ (Nat.le_refl _)

theorem combineHour_sub (day s e : Nat) (hse : s ≤ e) :
    combineHour day e - combineHour day s = 60 * (e - s) := by
  simp only [combineHour]
  omega

theorem slotCount_of_dvd {a b i : Nat} (hi : 0 < i) (hd : i ∣ b - a) :
    slotCount a b i = (b - a) / i := by
  unfold slotCount
  obtain ⟨c, hc⟩ := hd
  have hc2 : b - a = c * i := by rw [hc]; ring
  rw [hc2]
  cases c with
  | zero =>
    simp only [Nat.zero_mul, Nat.zero_add]
    rw [Nat.div_eq_of_lt (by omega), Nat.zero_div]
  | succ m =>
    have h1 : (m + 1) * i + i - 1 = (i - 1) + (m + 1) * i := by
      have hx : i ≤ (m + 1) * i := Nat.le_mul_of_pos_left i (by omega)
      generalize (m + 1) * i = k at hx ⊢
      omega
    rw [h1, Nat.add_mul_div_right _ _ hi, Nat.div_eq_of_lt (by omega),
      Nat.mul_div_cancel _ hi, Nat.zero_add]

theorem generate_time_slots_length (day s e i : Nat) (hse : s < e) (hd : i ∣ 60 * (e - s)) :
    (generate_time_slots day s e i).length = 60 * (e - s) / i := by
  have hi : 0 < i := by
    rcases Nat.eq_zero_or_pos i with h0 | h
    · subst h0
      have := Nat.eq_zero_of_zero_dvd hd
      omega
    · exact h
  have hsub := combineHour_sub day s e (Nat.le_of_lt hse)
  rw [generate_time_slots_closed day s e i hi, List.length_map, List.length_range,
    slotCount_of_dvd hi (by rw [hsub]; exact hd), hsub]

/-- C2 (amended): for every working window with end after start whose minute
span the interval divides (and only then — see the counterexample for a
non-dividing interval), `generate_time_slots` returns exactly
(end−start)/interval slots, strictly increasing, consecutive slots spaced by
the interval, the first slot equal to the start of the window; in particular
the default 09:00-18:00 window with a 15-minute interval yields exactly 36
slots on any day. -/
theorem claim_C2_slot_generation (day s e i : Nat) (hse : s < e) (hd : i ∣ 60 * (e - s)) :
    (generate_time_slots day s e i).length = 60 * (e - s) / i
    ∧ (generate_time_slots day s e i).head? = some (combineHour day s)
    ∧ (generate_time_slots day s e i).Pairwise (fun a b => a < b)
    ∧ (∀ j, (hj : j + 1 < (generate_time_slots day s e i).length) →
        (generate_time_slots day s e i)[j + 1] = (generate_time_slots day s e i)[j] + i)
    ∧ (∀ d2, (generate_time_slots d2 9 18 15).length = 36) := by
  have hi : 0 < i := by
    rcases Nat.eq_zero_or_pos i with h0 | h
    · subst h0
      have := Nat.eq_zero_of_zero_dvd hd
      omega
    · exact h
  have hlen := generate_time_slots_length day s e i hse hd
  have hclosed := generate_time_slots_closed day s e i hi
  have hlen2 : (generate_time_slots day s e i).length =
      slotCount (combineHour day s) (combineHour day e) i := by
    rw [hclosed, List.length_map, List.length_range]
  have hn1 : 1 ≤ slotCount (combineHour day s) (combineHour day e) i := by
    have hle : i ≤ 60 * (e - s) := Nat.le_of_dvd (by omega) hd
    have hge : 1 ≤ 60 * (e - s) / i := (Nat.one_le_div_iff hi).mpr hle
    omega
  refine ⟨hlen, ?_, ?_, ?_, ?_⟩
  · obtain ⟨m, hm⟩ : ∃ m, slotCount (combineHour day s) (combineHour day e) i = m + 1 :=
      ⟨slotCount (combineHour day s) (combineHour day e) i - 1, by omega⟩
    rw [hclosed, hm, List.range_succ_eq_map]
    simp
  · rw [hclosed, List.pairwise_map]
    exact (List.pairwise_lt_range _).imp
      (fun hab => Nat.add_lt_add_left ((Nat.mul_lt_mul_right hi).mpr hab) _)
  · intro j hj
    simp only [hclosed, List.getElem_map, List.getElem_range, List.length_map,
      List.length_range] at hj ⊢
    ring
  · intro d2
    rw [generate_time_slots_length d2 9 18 15 (by norm_num) (by norm_num)]

/-- C2 counterexample: the claim quantifies over every configuration with
end > start, but for the window 09:00-10:00 with a 25-minute interval the
loop emits a partial trailing slot (09:00, 09:25, 09:50 — three slots), not
(end−start)/interval of them. -/
theorem claim_C2_counterexample :
    ¬ ((generate_time_slots 0 9 10 25).length = 60 * (10 - 9) / 25) := by decide

/-- Witness: the amended C2 theorem applied to the default configuration on a
concrete day. -/
theorem claim_C2_witness :
    (generate_time_slots 3 9 18 15).length = 60 * (18 - 9) / 15
    ∧ (generate_time_slots 3 9 18 15).head? = some (combineHour 3 9) := by
  have h := claim_C2_slot_generation 3 9 18 15 (by decide) (by decide)
  exact ⟨h.1, h.2.1⟩

/-! Availability: the day-window comparison and the display_slots filter. -/

theorem mem_day_window_iff {t day : Nat} :
    (start_of_day day ≤ t ∧ t ≤ end_of_day day) ↔ dayOf t = dayOf day := by
  simp only [start_of_day, end_of_day, dayOf]
  omega

/-- C3: for every appointments table, provider, target day and current
instant, the availability computation of `display_slots` returns exactly the
generated slots that are not among the booked instants, filtered to instants
strictly after now exactly when the shown day is the current local calendar
day; the result is a subset of the generated slots and disjoint from the
booked set, and for a day other than today the now-filter is skipped. -/
theorem claim_C3_availability (db : List Appointment) (doctor_id : Nat) (day_to_show now_aware : Nat) :
    (∀ s, s ∈ display_slots_available db doctor_id day_to_show now_aware ↔
        (s ∈ generate_time_slots (dayOf day_to_show) 9 18 15
          ∧ s ∉ get_booked_slots db doctor_id day_to_show
          ∧ (dayOf day_to_show = dayOf now_aware → now_aware < s)))
    ∧ (∀ s ∈ display_slots_available db doctor_id day_to_show now_aware,
        s ∈ generate_time_slots (dayOf day_to_show) 9 18 15)
    ∧ (∀ b ∈ get_booked_slots db doctor_id day_to_show,
        b ∉ display_slots_available db doctor_id day_to_show now_aware)
    ∧ (dayOf day_to_show ≠ dayOf now_aware →
        display_slots_available db doctor_id day_to_show now_aware =
          (generate_time_slots (dayOf day_to_show) 9 18 15).filter
            (fun s => !(decide (s ∈ get_booked_slots db doctor_id day_to_show)))) := by
  have hmem : ∀ s, s ∈ display_slots_available db doctor_id day_to_show now_aware ↔
      (s ∈ generate_time_slots (dayOf day_to_show) 9 18 15
        ∧ s ∉ get_booked_slots db doctor_id day_to_show
        ∧ (dayOf day_to_show = dayOf now_aware → now_aware < s)) := by
    intro s
    by_cases h : dayOf day_to_show = dayOf now_aware
    · simp [display_slots_available, available_slots, List.mem_filter, h, and_assoc]
    · simp [display_slots_available, available_slots, List.mem_filter, h]
  refine ⟨hmem, fun s hs => ((hmem s).mp hs).1, fun b hb hbR => ((hmem b).mp hbR).2.1 hb, ?_⟩
  intro h
  have hb : (dayOf day_to_show == dayOf now_aware) = false := by
    simpa using h
  simp [display_slots_available, available_slots, hb]

/-- Witness: C3 applied at a concrete table, doctor, day and instant — the
stored 10:00 appointment of the doctor does not reappear as available. -/
theorem claim_C3_witness :
    (600 : Nat) ∉ display_slots_available [⟨5, "9999999999", 600⟩] 5 0 550 := by
  have h := claim_C3_availability [⟨5, "9999999999", 600⟩] 5 0 550
  exact h.2.2.1 600 (by decide)

/-! Booking: the conflict check and the booking transaction. -/

theorem matchesConflict_iff {patient_phone : String} {doctor_id : Nat} {day : Nat} {a : Appointment} :
    matchesConflict patient_phone doctor_id day a = true ↔
      (a.patientPhoneNumber = patient_phone ∧ a.doctorID = doctor_id
        ∧ dayOf a.appointmentDateTime = dayOf day) := by
  simp only [matchesConflict, Bool.and_eq_true, beq_iff_eq, decide_eq_true_eq]
  constructor
  · rintro ⟨⟨⟨h1, h2⟩, h3⟩, h4⟩
    exact ⟨h1, h2, mem_day_window_iff.mp ⟨h3, h4⟩⟩
  · rintro ⟨h1, h2, h3⟩
    have hw := mem_day_window_iff.mpr h3
    exact ⟨⟨⟨h1, h2⟩, hw.1⟩, hw.2⟩

theorem check_existing_eq_none_iff (db : List Appointment) (patient_phone : String) (doctor_id : Nat) (day : Nat) :
    check_existing_appointment db patient_phone doctor_id day = none ↔
      ∀ a ∈ db, ¬ (a.patientPhoneNumber = patient_phone ∧ a.doctorID = doctor_id
        ∧ dayOf a.appointmentDateTime = dayOf day) := by
  unfold check_existing_appointment
  rw [Option.map_eq_none', List.head?_eq_none_iff, List.filter_eq_nil_iff]
  constructor
  · intro h a ha hc
    exact h a ha (matchesConflict_iff.mpr hc)
  · intro h a ha hm
    exact h a ha (matchesConflict_iff.mp hm)

theorem check_existing_eq_some_of_mem (db : List Appointment) (patient_phone : String) (doctor_id : Nat) (day : Nat)
    (h : ∃ a ∈ db, a.patientPhoneNumber = patient_phone ∧ a.doctorID = doctor_id
      ∧ dayOf a.appointmentDateTime = dayOf day) :
    ∃ t, check_existing_appointment db patient_phone doctor_id day = some t
      ∧ ∃ a ∈ db, a.patientPhoneNumber = patient_phone ∧ a.doctorID = doctor_id
          ∧ a.appointmentDateTime = t ∧ dayOf t = dayOf day := by
  obtain ⟨a0, ha0, hc0⟩ := h
  rcases hfl : db.filter (matchesConflict patient_phone doctor_id day) with _ | ⟨b, rest⟩
  · exfalso
    exact (List.filter_eq_nil_iff.mp hfl a0 ha0) (matchesConflict_iff.mpr hc0)
  · have hbmem : b ∈ db.filter (matchesConflict patient_phone doctor_id day) := by
      rw [hfl]
      exact List.mem_cons_self _ _
    have hb2 := List.mem_filter.mp hbmem
    have hb3 := matchesConflict_iff.mp hb2.2
    refine ⟨b.appointmentDateTime, ?_, b, hb2.1, hb3.1, hb3.2.1, rfl, hb3.2.2⟩
    unfold check_existing_appointment
    rw [hfl]
    rfl

/-- C1: once the table holds an appointment for (phone, doctor, day), every
booking attempt by that phone with that doctor for any slot instant on that
day is rejected with a Conflict outcome carrying the stored time of an
existing appointment of that triple and the name of the doctor; the
appointments table is returned unchanged and the session moves to
POST_BOOKING with its dictionary intact. -/
theorem claim_C1_conflict_idempotent (doctors : List Doctor) (db : List Appointment) (patient_phone : String) (doctor_id : Nat) (slot_time : Nat) (insert_ok : Bool) (d : UserData) (doc : Doctor)
    (hdoc : get_doctor_by_id doctors doctor_id = some doc)
    (hex : ∃ a ∈ db, a.patientPhoneNumber = patient_phone ∧ a.doctorID = doctor_id
        ∧ dayOf a.appointmentDateTime = dayOf slot_time) :
    ∃ t, make_booking doctors db patient_phone doctor_id slot_time insert_ok d =
        some (BookingOutcome.Conflict t doc.doctorName, db, ConvState.POST_BOOKING, d)
      ∧ ∃ a ∈ db, a.patientPhoneNumber = patient_phone ∧ a.doctorID = doctor_id
          ∧ a.appointmentDateTime = t ∧ dayOf t = dayOf slot_time := by
  obtain ⟨t, hck, hwit⟩ := check_existing_eq_some_of_mem db patient_phone doctor_id slot_time hex
  refine ⟨t, ?_, hwit⟩
  unfold make_booking
  rw [hck, hdoc]
  rfl

/-- Witness: C1 at the scenario of the spec — phone 9999999999 already booked
with doctor 5 at 10:00 of day 0; the 10:15 attempt on the same day conflicts
and the table is unchanged. -/
theorem claim_C1_witness :
    ∃ t, make_booking [⟨5, "Dr Rao", "Cardiology", 10⟩] [⟨5, "9999999999", 600⟩]
        "9999999999" 5 615 true UserData.empty =
        some (BookingOutcome.Conflict t "Dr Rao", [⟨5, "9999999999", 600⟩],
          ConvState.POST_BOOKING, UserData.empty)
      ∧ ∃ a ∈ [(⟨5, "9999999999", 600⟩ : Appointment)],
          a.patientPhoneNumber = "9999999999" ∧ a.doctorID = 5
            ∧ a.appointmentDateTime = t ∧ dayOf t = dayOf 615 :=
  claim_C1_conflict_idempotent [⟨5, "Dr Rao", "Cardiology", 10⟩] [⟨5, "9999999999", 600⟩]
    "9999999999" 5 615 true UserData.empty ⟨5, "Dr Rao", "Cardiology", 10⟩
    (by decide) ⟨⟨5, "9999999999", 600⟩, by decide, by decide⟩

/-- C4: the conflict guard keys only on (phone, doctor, day). If some other
patient p1 already holds an appointment with the doctor at instant t but the
booking patient p2 has no appointment with that doctor on that day, the
attempt by p2 for the very same doctor and instant passes the guard, inserts,
and confirms — leaving two appointments with the same doctor at the same
instant in the table. -/
theorem claim_C4_no_cross_patient_guard (doctors : List Doctor) (db : List Appointment) (p1 p2 : String) (doctor_id : Nat) (t : Nat) (d : UserData) (doc : Doctor)
    (hdoc : get_doctor_by_id doctors doctor_id = some doc)
    (hne : p1 ≠ p2)
    (h1 : (⟨doctor_id, p1, t⟩ : Appointment) ∈ db)
    (h2 : ∀ a ∈ db, ¬ (a.patientPhoneNumber = p2 ∧ a.doctorID = doctor_id
        ∧ dayOf a.appointmentDateTime = dayOf t)) :
    make_booking doctors db p2 doctor_id t true d =
      some (BookingOutcome.Confirmed t doc.doctorName doc.specialty,
        db ++ [⟨doctor_id, p2, t⟩], ConvState.POST_BOOKING, d)
    ∧ (⟨doctor_id, p1, t⟩ : Appointment) ∈ db ++ [⟨doctor_id, p2, t⟩]
    ∧ (⟨doctor_id, p2, t⟩ : Appointment) ∈ db ++ [⟨doctor_id, p2, t⟩] := by
  have hck : check_existing_appointment db p2 doctor_id t = none :=
    (check_existing_eq_none_iff db p2 doctor_id t).mpr h2
  refine ⟨?_, List.mem_append_left _ h1, List.mem_append_right _ (List.mem_cons_self _ _)⟩
  unfold make_booking
  rw [hck, hdoc]
  rfl

/-- Witness: C4 at a concrete table — patient 111 holds the 10:00 slot of
doctor 5, patient 222 books the same doctor and instant and is confirmed. -/
theorem claim_C4_witness :
    make_booking [⟨5, "Dr Rao", "Cardiology", 10⟩] [⟨5, "111", 600⟩] "222" 5 600 true
        UserData.empty =
      some (BookingOutcome.Confirmed 600 "Dr Rao" "Cardiology",
        [⟨5, "111", 600⟩] ++ [⟨5, "222", 600⟩], ConvState.POST_BOOKING, UserData.empty)
    ∧ (⟨5, "111", 600⟩ : Appointment) ∈ [⟨5, "111", 600⟩] ++ [⟨5, "222", 600⟩]
    ∧ (⟨5, "222", 600⟩ : Appointment) ∈ [⟨5, "111", 600⟩] ++ [⟨5, "222", 600⟩] :=
  claim_C4_no_cross_patient_guard [⟨5, "Dr Rao", "Cardiology", 10⟩] [⟨5, "111", 600⟩]
    "111" "222" 5 600 UserData.empty ⟨5, "Dr Rao", "Cardiology", 10⟩
    (by decide) (by decide) (by decide) (by decide)

/-- C5: the two failure modes are asymmetric. A Conflict outcome leaves the
table and the session dictionary untouched and moves to POST_BOOKING (the
session stays alive), for any value of the insert flag; a failing insert
yields BookingFailed, leaves the table unchanged (rollback), ends the
conversation and clears the session dictionary. -/
theorem claim_C5_failure_asymmetry (doctors : List Doctor) (db : List Appointment) (patient_phone : String) (doctor_id : Nat) (slot_time : Nat) (d : UserData) (doc : Doctor)
    (hdoc : get_doctor_by_id doctors doctor_id = some doc) :
    (∀ t insert_ok, check_existing_appointment db patient_phone doctor_id slot_time = some t →
        make_booking doctors db patient_phone doctor_id slot_time insert_ok d =
          some (BookingOutcome.Conflict t doc.doctorName, db, ConvState.POST_BOOKING, d))
    ∧ (check_existing_appointment db patient_phone doctor_id slot_time = none →
        make_booking doctors db patient_phone doctor_id slot_time false d =
          some (BookingOutcome.BookingFailed, db, ConvState.SESSION_END, UserData.empty)) := by
  constructor
  · intro t insert_ok hck
    unfold make_booking
    rw [hck, hdoc]
    rfl
  · intro hck
    unfold make_booking
    rw [hck, hdoc]
    rfl

/-- Witness: both branches of C5 at concrete inputs — a conflicting attempt
keeps table and session and lands in POST_BOOKING, a failed insert on an
empty table ends the session and clears the dictionary. -/
theorem claim_C5_witness :
    make_booking [⟨5, "Dr Rao", "Cardiology", 10⟩] [⟨5, "9999999999", 600⟩]
        "9999999999" 5 615 true UserData.empty =
      some (BookingOutcome.Conflict 600 "Dr Rao", [⟨5, "9999999999", 600⟩],
        ConvState.POST_BOOKING, UserData.empty)
    ∧ make_booking [⟨5, "Dr Rao", "Cardiology", 10⟩] [] "9999999999" 5 615 false
        UserData.empty =
      some (BookingOutcome.BookingFailed, [], ConvState.SESSION_END, UserData.empty) :=
  ⟨(claim_C5_failure_asymmetry [⟨5, "Dr Rao", "Cardiology", 10⟩] [⟨5, "9999999999", 600⟩]
      "9999999999" 5 615 UserData.empty ⟨5, "Dr Rao", "Cardiology", 10⟩ (by decide)).1
      600 true (by decide),
   (claim_C5_failure_asymmetry [⟨5, "Dr Rao", "Cardiology", 10⟩] [] "9999999999" 5 615
      UserData.empty ⟨5, "Dr Rao", "Cardiology", 10⟩ (by decide)).2 (by decide)⟩

/-! Profiles: the upsert and the lookup. -/

theorem find_map_upd (p n2 : String) (a2 : Nat) :
    ∀ (l : List Profile), l.any (fun pr => pr.phoneNumber == p) = true →
      (l.map (fun pr =>
          if pr.phoneNumber == p then (⟨pr.phoneNumber, n2, a2⟩ : Profile) else pr)).find?
        (fun pr => pr.phoneNumber == p) = some ⟨p, n2, a2⟩ := by
  intro l
  induction l with
  | nil =>
    intro h
    simp at h
  | cons pr rest ih =>
    intro h
    by_cases hpr : (pr.phoneNumber == p) = true
    · have heq : pr.phoneNumber = p := by simpa using hpr
      simp [List.map_cons, if_pos hpr, List.find?_cons, hpr, heq]
    · have heq2 : (pr.phoneNumber == p) = false := by simpa using hpr
      simp only [List.map_cons, heq2, Bool.false_eq_true, if_false, List.find?_cons]
      exact ih (by simpa [hpr] using h)

theorem find_profile_save_self (profiles : List Profile) (p n : String) (a : Nat) (hp : pyStrip p = p) :
    find_profile_by_phone (save_new_profile profiles p n a) p = some (n, a) := by
  unfold find_profile_by_phone save_new_profile
  rw [hp]
  by_cases hany : profiles.any (fun pr => pr.phoneNumber == p) = true
  · rw [if_pos hany, find_map_upd p n a profiles hany]
    rfl
  · rw [if_neg hany, List.find?_append]
    have hnone : profiles.find? (fun pr => pr.phoneNumber == p) = none := by
      rw [List.find?_eq_none]
      intro x hx hxp
      exact hany (List.any_eq_true.mpr ⟨x, hx, hxp⟩)
    rw [hnone, Option.none_or, List.find?_cons_of_pos _ (by simp)]
    rfl

theorem any_save_self (profiles : List Profile) (p n : String) (a : Nat) :
    (save_new_profile profiles p n a).any (fun pr => pr.phoneNumber == p) = true := by
  unfold save_new_profile
  by_cases hany : profiles.any (fun pr => pr.phoneNumber == p) = true
  · rw [if_pos hany]
    obtain ⟨x, hx, hxp⟩ := List.any_eq_true.mp hany
    refine List.any_eq_true.mpr
      ⟨(if x.phoneNumber == p then (⟨x.phoneNumber, n, a⟩ : Profile) else x),
       List.mem_map_of_mem _ hx, ?_⟩
    rw [if_pos hxp]
    exact hxp
  · rw [if_neg hany]
    exact List.any_eq_true.mpr
      ⟨⟨p, n, a⟩, List.mem_append_right _ (List.mem_cons_self _ _), by simp⟩

theorem countP_save (profiles : List Profile) (p n : String) (a : Nat) :
    (save_new_profile profiles p n a).countP (fun pr => pr.phoneNumber == p) =
      (if profiles.any (fun pr => pr.phoneNumber == p) = true
       then profiles.countP (fun pr => pr.phoneNumber == p)
       else profiles.countP (fun pr => pr.phoneNumber == p) + 1) := by
  unfold save_new_profile
  by_cases hany : profiles.any (fun pr => pr.phoneNumber == p) = true
  · rw [if_pos hany, if_pos hany, List.countP_map]
    congr 1
    funext pr
    by_cases hpr : (pr.phoneNumber == p) = true
    · simp [Function.comp, hpr]
    · simp [Function.comp, hpr]
  · rw [if_neg hany, if_neg hany, List.countP_append]
    simp

theorem phones_save (profiles : List Profile) (p n : String) (a : Nat) :
    (save_new_profile profiles p n a).map Profile.phoneNumber =
      (if profiles.any (fun pr => pr.phoneNumber == p) = true
       then profiles.map Profile.phoneNumber
       else profiles.map Profile.phoneNumber ++ [p]) := by
  unfold save_new_profile
  by_cases hany : profiles.any (fun pr => pr.phoneNumber == p) = true
  · rw [if_pos hany, if_pos hany, List.map_map]
    congr 1
    funext pr
    by_cases hpr : (pr.phoneNumber == p) = true
    · simp [Function.comp, hpr]
    · simp [Function.comp, hpr]
  · rw [if_neg hany, if_neg hany, List.map_append]
    rfl

theorem nodup_phones_save (profiles : List Profile) (p n : String) (a : Nat)
    (hnd : (profiles.map Profile.phoneNumber).Nodup) :
    ((save_new_profile profiles p n a).map Profile.phoneNumber).Nodup := by
  rw [phones_save]
  by_cases hany : profiles.any (fun pr => pr.phoneNumber == p) = true
  · rw [if_pos hany]
    exact hnd
  · rw [if_neg hany]
    have hp : p ∉ profiles.map Profile.phoneNumber := by
      intro hmem
      obtain ⟨pr, hpr, hpe⟩ := List.mem_map.mp hmem
      exact hany (List.any_eq_true.mpr ⟨pr, hpr, by simp [hpe]⟩)
    simp [List.nodup_append, hnd, hp]

theorem countP_le_one_of_nodup (profiles : List Profile) (p : String)
    (hnd : (profiles.map Profile.phoneNumber).Nodup) :
    profiles.countP (fun pr => pr.phoneNumber == p) ≤ 1 := by
  have h1 : profiles.countP (fun pr => pr.phoneNumber == p) =
      List.count p (profiles.map Profile.phoneNumber) := by
    rw [List.count, List.countP_map]
    rfl
  rw [h1]
  exact List.nodup_iff_count_le_one.mp hnd p

theorem one_le_countP_of_any (profiles : List Profile) (p : String)
    (h : profiles.any (fun pr => pr.phoneNumber == p) = true) :
    1 ≤ profiles.countP (fun pr => pr.phoneNumber == p) := by
  obtain ⟨x, hx, hxp⟩ := List.any_eq_true.mp h
  exact List.countP_pos_iff.mpr ⟨x, hx, hxp⟩

/-- C6 (amended): for every phone that the lookup normalization leaves
unchanged (no surrounding whitespace — see the counterexample) against a
table with unique phones, upsert then lookup returns the stored name and age;
a second upsert overwrites them and the lookup returns the new pair; the
table holds exactly one row for that phone and its phone column stays free of
duplicates. -/
theorem claim_C6_upsert_round_trip (profiles : List Profile) (p n n2 : String) (a a2 : Nat)
    (hp : pyStrip p = p) (hnd : (profiles.map Profile.phoneNumber).Nodup) :
    find_profile_by_phone (save_new_profile profiles p n a) p = some (n, a)
    ∧ find_profile_by_phone
        (save_new_profile (save_new_profile profiles p n a) p n2 a2) p = some (n2, a2)
    ∧ (save_new_profile (save_new_profile profiles p n a) p n2 a2).countP
        (fun pr => pr.phoneNumber == p) = 1
    ∧ ((save_new_profile (save_new_profile profiles p n a) p n2 a2).map
        Profile.phoneNumber).Nodup := by
  have hfind1 := find_profile_save_self profiles p n a hp
  have hfind2 := find_profile_save_self (save_new_profile profiles p n a) p n2 a2 hp
  have hany1 := any_save_self profiles p n a
  refine ⟨hfind1, hfind2, ?_, ?_⟩
  · rw [countP_save (save_new_profile profiles p n a) p n2 a2, if_pos hany1,
      countP_save profiles p n a]
    by_cases hany0 : profiles.any (fun pr => pr.phoneNumber == p) = true
    · rw [if_pos hany0]
      have hle := countP_le_one_of_nodup profiles p hnd
      have hge := one_le_countP_of_any profiles p hany0
      omega
    · rw [if_neg hany0]
      have h0 : profiles.countP (fun pr => pr.phoneNumber == p) = 0 := by
        rw [List.countP_eq_zero]
        intro x hx hxp
        exact hany0 (List.any_eq_true.mpr ⟨x, hx, hxp⟩)
      omega
  · exact nodup_phones_save _ p n2 a2 (nodup_phones_save profiles p n a hnd)

/-- C6 counterexample: the claim quantifies over every phone, but the lookup
strips its argument while the upsert stores the raw string, so a phone with a
leading space round-trips to nothing. -/
theorem claim_C6_counterexample :
    find_profile_by_phone (save_new_profile [] " 1" "Bob" 30) " 1" ≠ some ("Bob", 30) := by
  decide

/-- Witness: the amended C6 theorem at a concrete whitespace-free phone over
the empty table. -/
theorem claim_C6_witness :
    find_profile_by_phone (save_new_profile [] "9999999999" "Asha" 30) "9999999999" =
      some ("Asha", 30)
    ∧ find_profile_by_phone
        (save_new_profile (save_new_profile [] "9999999999" "Asha" 30) "9999999999"
          "Asha Rao" 31) "9999999999" = some ("Asha Rao", 31)
    ∧ (save_new_profile (save_new_profile [] "9999999999" "Asha" 30) "9999999999"
        "Asha Rao" 31).countP (fun pr => pr.phoneNumber == "9999999999") = 1
    ∧ ((save_new_profile (save_new_profile [] "9999999999" "Asha" 30) "9999999999"
        "Asha Rao" 31).map Profile.phoneNumber).Nodup :=
  claim_C6_upsert_round_trip [] "9999999999" "Asha" "Asha Rao" 30 31 (by decide) (by simp)

/-! Conversation state machine: cancellation and the regular-user login. -/

/-- C7: in every non-terminal state of the patient state machine, the Stop
button (callback data `cancel_flow`) and the /cancel command are accepted —
no state handler shadows them, so the fallback table dispatches them — and
the cancellation handlers unconditionally move the session to the terminal
state with a cleared session dictionary. -/
theorem claim_C7_cancellation (s : ConvState) (d : UserData) (h : s ≠ ConvState.SESSION_END) :
    dispatch s (ChatEvent.callback "cancel_flow") = some HandlerId.cancel_flow_h
    ∧ dispatch s (ChatEvent.command "cancel") = some HandlerId.cancel_h
    ∧ cancel_flow d = ("Process cancelled.", ConvState.SESSION_END, UserData.empty)
    ∧ cancel d =
        ("Operation cancelled. You can start over anytime by clicking the button below.",
         ConvState.SESSION_END, UserData.empty) := by
  cases s
  case SESSION_END => exact absurd rfl h
  all_goals exact ⟨by decide, by decide, rfl, rfl⟩

/-- Witness: C7 in the slot-selection state with an empty dictionary. -/
theorem claim_C7_witness :
    dispatch ConvState.CHOOSING_SLOT (ChatEvent.callback "cancel_flow") =
      some HandlerId.cancel_flow_h
    ∧ dispatch ConvState.CHOOSING_SLOT (ChatEvent.command "cancel") = some HandlerId.cancel_h
    ∧ cancel_flow UserData.empty = ("Process cancelled.", ConvState.SESSION_END, UserData.empty)
    ∧ cancel UserData.empty =
        ("Operation cancelled. You can start over anytime by clicking the button below.",
         ConvState.SESSION_END, UserData.empty) :=
  claim_C7_cancellation ConvState.CHOOSING_SLOT UserData.empty (by decide)

/-- C8: in the regular-user path, an unregistered phone re-prompts and stays
in GETTING_PHONE_REGULAR with the session untouched; a registered phone
greets the patient, stores the found identity in the session and proceeds to
specialty selection (CHOOSING_DOCTOR) when specialties are available. -/
theorem claim_C8_regular_login (profiles : List Profile) (specialties : List String) (phone_number : String) (d : UserData) :
    (find_profile_by_phone profiles phone_number = none →
      check_phone_and_proceed profiles specialties phone_number d =
        ("This phone number is not registered. Please try again, or /start to register as a new user.",
         ConvState.GETTING_PHONE_REGULAR, d))
    ∧ (∀ patient_name age,
        find_profile_by_phone profiles phone_number = some (patient_name, age) →
        specialties ≠ [] →
        check_phone_and_proceed profiles specialties phone_number d =
          ("Welcome back, " ++ patient_name ++ "!", ConvState.CHOOSING_DOCTOR,
           UserData.withIdentity d patient_name phone_number)) := by
  constructor
  · intro hnone
    unfold check_phone_and_proceed
    rw [hnone]
  · intro patient_name age hsome hne
    have hempty : specialties.isEmpty = false := by
      simpa [List.isEmpty_iff] using hne
    unfold check_phone_and_proceed
    rw [hsome]
    simp [show_specialties, hempty]

/-- Witness: C8 applied to a concrete profile table — an unknown phone stays
in the phone-entry state, the registered phone logs in and proceeds. -/
theorem claim_C8_witness :
    check_phone_and_proceed [⟨"9999999999", "Asha", 30⟩] ["Cardiology"] "0000" UserData.empty =
      ("This phone number is not registered. Please try again, or /start to register as a new user.",
       ConvState.GETTING_PHONE_REGULAR, UserData.empty)
    ∧ check_phone_and_proceed [⟨"9999999999", "Asha", 30⟩] ["Cardiology"] "9999999999"
        UserData.empty =
      ("Welcome back, " ++ "Asha" ++ "!", ConvState.CHOOSING_DOCTOR,
       UserData.withIdentity UserData.empty "Asha" "9999999999") :=
  ⟨(claim_C8_regular_login [⟨"9999999999", "Asha", 30⟩] ["Cardiology"] "0000"
      UserData.empty).1 (by decide),
   (claim_C8_regular_login [⟨"9999999999", "Asha", 30⟩] ["Cardiology"] "9999999999"
      UserData.empty).2 "Asha" 30 (by decide) (by decide)⟩

/-! Provider flow: date fallback and record display. -/

/-- C9: in the provider GETTING_DATE step, input the date parser cannot
recognize sends the explanatory re-prompt (the Bool flag) and routes the
session back to VIEWING_OPTIONS rather than retrying GETTING_DATE; a
recognized instant displays the records of its calendar day and moves to the
follow-up menu state. -/
theorem claim_C9_date_fallback (file : Option (List NexusAppointment)) (doctor_id : String) :
    get_specific_date none file doctor_id = (NexusState.VIEWING_OPTIONS, none, true)
    ∧ (∀ date_obj : Nat,
        get_specific_date (some date_obj) file doctor_id =
          (NexusState.POST_VIEWING_CHOICE,
           some (display_records file doctor_id (dayOf date_obj)).1, false)) :=
  ⟨rfl, fun _ => rfl⟩

/-- Witness: C9 at a concrete unparseable input and a concrete date. -/
theorem claim_C9_witness :
    get_specific_date none none "7" = (NexusState.VIEWING_OPTIONS, none, true) :=
  (claim_C9_date_fallback none "7").1

/-- C10: record display fetches exactly the appointments of the requested
provider on the requested day (a permutation of the matching rows of the
file), renders them ordered by ascending appointment time with the length of
the list as the trailing total, exports exactly when the list is non-empty,
moves to the follow-up state, and treats an absent file as an empty result. -/
theorem claim_C10_record_display (file : Option (List NexusAppointment)) (doctor_id : String) (day : Nat) :
    List.Perm (get_appointments_for_doctor file doctor_id day)
      (((rowsOf file).filter (fun r =>
          pyStrip r.doctorID == pyStrip doctor_id && dayOf r.appointmentDateTime == day)).map
        (fun r => (r.appointmentDateTime, r.patientName)))
    ∧ (get_appointments_for_doctor file doctor_id day).Pairwise (fun x y => x.1 ≤ y.1)
    ∧ (display_records file doctor_id day).1.entries =
        get_appointments_for_doctor file doctor_id day
    ∧ (display_records file doctor_id day).1.total_shown =
        (get_appointments_for_doctor file doctor_id day).length
    ∧ ((display_records file doctor_id day).1.exported = true ↔
        get_appointments_for_doctor file doctor_id day ≠ [])
    ∧ (display_records file doctor_id day).2 = NexusState.POST_VIEWING_CHOICE
    ∧ get_appointments_for_doctor none doctor_id day = [] := by
  refine ⟨?_, ?_, rfl, rfl, ?_, rfl, rfl⟩
  · cases file with
    | none => simp [get_appointments_for_doctor, rowsOf]
    | some rows =>
      simp only [get_appointments_for_doctor, rowsOf]
      exact List.mergeSort_perm _ _
  · cases file with
    | none => simp [get_appointments_for_doctor]
    | some rows =>
      simp only [get_appointments_for_doctor]
      have htrans : ∀ (a b c : Nat × String),
          decide (a.1 ≤ b.1) = true → decide (b.1 ≤ c.1) = true →
            decide (a.1 ≤ c.1) = true := by
        intro a b c hab hbc
        simp only [decide_eq_true_eq] at hab hbc ⊢
        omega
      have htotal : ∀ (a b : Nat × String),
          (decide (a.1 ≤ b.1) || decide (b.1 ≤ a.1)) = true := by
        intro a b
        simp [Nat.le_total]
      have hs := @List.sorted_mergeSort (Nat × String) (fun x y => decide (x.1 ≤ y.1))
        htrans htotal
        ((rows.filter (fun r =>
            pyStrip r.doctorID == pyStrip doctor_id && dayOf r.appointmentDateTime == day)).map
          (fun r => (r.appointmentDateTime, r.patientName)))
      exact hs.imp (fun hxy => of_decide_eq_true hxy)
  · simp [display_records, List.isEmpty_iff]

/-- Witness: C10 at an absent appointments file — the result is empty, not an
error. -/
theorem claim_C10_witness :
    get_appointments_for_doctor none "7" 0 = [] :=
  (claim_C10_record_display none "7" 0).2.2.2.2.2.2

end HospitalManager
